import Mathlib

/-!
Shallow embedding of the Rate-Limiter repository.

Sources embedded here:
- `src/rate_limiter.py` — class `TokenBucket` (in-memory fallback path,
  `REDIS_AVAILABLE = False`; the Redis branch is an optional write-through
  cache, out of core scope per the spec).
- `src/smart-limiter-api/rate_limiter.py` — the second `TokenBucket` variant.
- `src/ml_classifier.py` — `UserProfile`, `MLClassifier`.
- `src/app.py` — the `rate_limit_middleware` composition.

Python floats (times, tokens, rates, scores) are modelled as `ℚ`; Python dicts
as association lists with in-place update; `deque(maxlen=n)` as a list whose
append drops the oldest elements beyond `n`; Python sets of strings as
duplicate-free lists.
-/

set_option maxHeartbeats 1000000
set_option maxRecDepth 8000

/-- Python truthiness-based `x or y` for an optional float argument:
`override or default` yields the override only when it is given and non-zero
(`None` and `0.0` are falsy in Python). -/
def pyOr (o : Option ℚ) (d : ℚ) : ℚ :=
  match o with
  | none => d
  | some v => if v = 0 then d else v

/-- Python dict assignment `m[k] = v` on an association list: replace the
binding in place if the key is present, otherwise append it. -/
def dictSet {α : Type} : List (String × α) → String → α → List (String × α)
  | [], k, v => [(k, v)]
  | (k', v') :: t, k, v =>
      if k' == k then (k, v) :: t else (k', v') :: dictSet t k v

/-- `deque(maxlen = n)` append: add on the right, dropping the oldest entries
on the left once the length exceeds `n`. -/
def pushMax {α : Type} (n : ℕ) (xs : List α) (x : α) : List α :=
  let ys := xs ++ [x]
  ys.drop (ys.length - n)

/-- Python `set.add` on a duplicate-free list model of a set of strings. -/
def setAdd (l : List String) (x : String) : List String :=
  if x ∈ l then l else l ++ [x]

/-- Python `min(a, b)` on two floats. It equals Mathlib's `min` on `ℚ`
(`pymin_eq_min` below); spelled out so that concrete runs evaluate. -/
def pymin (a b : ℚ) : ℚ := if a ≤ b then a else b

/-- Python `round(x, 1)`: one decimal digit. For the integer-valued scores
produced by the classifier this is the identity; half-up rounding is used
here, which agrees with Python's half-even rounding everywhere except at
exact odd multiples of `0.05`, which the program never produces. -/
def round1 (x : ℚ) : ℚ := (⌊x * 10 + 1 / 2⌋ : ℤ) / 10

/-- Substring test on character lists: does `pat` occur contiguously in `l`? -/
def listHasSub (pat l : List Char) : Bool :=
  (List.range (l.length + 1)).any fun i => pat.isPrefixOf (l.drop i)

/-- Python `pat in s` substring containment on strings. -/
def containsTok (s pat : String) : Bool := listHasSub pat.toList s.toList

/-- Python `s.lower()`. -/
def pyLower (s : String) : String := String.mk (s.data.map Char.toLower)

/-- Python `s.strip()`: drop leading and trailing whitespace. -/
def pyStrip (s : String) : String :=
  String.mk (((s.data.dropWhile Char.isWhitespace).reverse.dropWhile
    Char.isWhitespace).reverse)

/-- Python slicing `s[:n]`: the first `n` characters. -/
def pySlice (n : ℕ) (s : String) : String := String.mk (s.data.take n)

/-! ## `src/rate_limiter.py` — class `TokenBucket` (in-memory fallback) -/

/-- `TokenBucket.__init__(rate, burst)` plus the `_local` fallback store
(`user_id ↦ (tokens, last_refill)`). -/
structure TokenBucket where
  rate : ℚ
  burst : ℚ
  store : List (String × (ℚ × ℚ))  -- self._local

/-- `TokenBucket._get_bucket` (in-memory branch): `self._local.get(user_id)`. -/
def TokenBucket.get_bucket (b : TokenBucket) (uid : String) : Option (ℚ × ℚ) :=
  b.store.lookup uid

/-- `TokenBucket._refill(user_id, override_rate, override_burst)` with the
ambient `time.time()` passed explicitly as `now`. Returns `(tokens, now)`. -/
def TokenBucket.refill (b : TokenBucket) (uid : String) (now : ℚ)
    (override_rate override_burst : Option ℚ) : ℚ × ℚ :=
  let rate := pyOr override_rate b.rate        -- rate = override_rate or self.rate
  let burst := pyOr override_burst b.burst     -- burst = override_burst or self.burst
  let tl := match b.get_bucket uid with
    | some tl => tl
    | none => (burst, now)                     -- tokens, last_refill = burst, now
  let elapsed := now - tl.2                    -- elapsed = now - last_refill (no clamp)
  (pymin burst (tl.1 + elapsed * rate), now)

/-- `TokenBucket.allow_request(user_id, override_rate, override_burst)`:
returns the boolean decision and the post-call bucket. -/
def TokenBucket.allow_request (b : TokenBucket) (uid : String) (now : ℚ)
    (override_rate override_burst : Option ℚ) : Bool × TokenBucket :=
  let t := b.refill uid now override_rate override_burst
  if 1 ≤ t.1 then
    (true, { b with store := dictSet b.store uid (t.1 - 1, t.2) })
  else
    (false, { b with store := dictSet b.store uid (t.1, t.2) })

/-- `TokenBucket.get_tokens(user_id)`. -/
def TokenBucket.get_tokens (b : TokenBucket) (uid : String) : ℚ :=
  match b.get_bucket uid with
  | some tl => tl.1
  | none => b.burst

/-! ## `src/smart-limiter-api/rate_limiter.py` — the second `TokenBucket` -/

namespace Smart

/-- The `TokenBucket` of `src/smart-limiter-api/rate_limiter.py`: no
overrides, and `_refill` itself writes the bucket back. -/
structure TokenBucket where
  rate : ℚ
  burst : ℚ
  buckets : List (String × (ℚ × ℚ))

/-- `TokenBucket._refill(user_id)`: reads (or defaults) the bucket, refills,
writes `(tokens, now)` back, and returns the refilled token count together
with the updated object. -/
def TokenBucket.refill (b : TokenBucket) (uid : String) (now : ℚ) :
    ℚ × TokenBucket :=
  let tl := (b.buckets.lookup uid).getD (b.burst, now)
  let tokens := pymin b.burst (tl.1 + (now - tl.2) * b.rate)
  (tokens, { b with buckets := dictSet b.buckets uid (tokens, now) })

/-- `TokenBucket.allow_request(user_id)`: on success overwrites only the
token count, keeping the `last_refill` that `_refill` just wrote (= `now`). -/
def TokenBucket.allow_request (b : TokenBucket) (uid : String) (now : ℚ) :
    Bool × TokenBucket :=
  let t := b.refill uid now
  if 1 ≤ t.1 then
    (true, { t.2 with buckets := dictSet t.2.buckets uid (t.1 - 1, now) })
  else
    (false, t.2)

end Smart

/-! ## `src/ml_classifier.py` -/

/-- The four classification strings `NORMAL/SUSPICIOUS/ABUSIVE/BOT` as a
closed enumeration. -/
inductive Tier where
  | normal
  | suspicious
  | abusive
  | bot
deriving DecidableEq, Repr

/-- The `POINTS` dictionary: points awarded per signal key. -/
def points : String → ℚ
  | "rate_suspicious" => 20
  | "rate_abusive" => 40
  | "burst" => 20
  | "bot_timing" => 35
  | "scraping" => 15
  | "block_few" => 10
  | "block_many" => 25
  | "bot_ua" => 10
  | "no_ua" => 5
  | _ => 0

/-- Class `UserProfile` (`__init__` fields). `timestamps` is a
`deque(maxlen=500)`, `paths` a `deque(maxlen=200)`, `user_agents` a set. -/
structure UserProfile where
  timestamps : List ℚ
  paths : List String
  user_agents : List String
  blocked_count : ℕ
  classification : Tier
  score : ℚ
  dynamic_rate : Option ℚ
  dynamic_burst : Option ℚ
  active_signals : List String

/-- `UserProfile()` constructor defaults. -/
def UserProfile.init : UserProfile :=
  { timestamps := [], paths := [], user_agents := [], blocked_count := 0
    classification := .normal, score := 0, dynamic_rate := none
    dynamic_burst := none, active_signals := [] }

/-- `recent_60 = [t for t in p.timestamps if now - t <= WINDOW_SECONDS]`. -/
def recent60 (p : UserProfile) (now : ℚ) : List ℚ :=
  p.timestamps.filter fun t => now - t ≤ 60

/-- `rate_60 = len(recent_60)`. -/
def rate60 (p : UserProfile) (now : ℚ) : ℕ := (recent60 p now).length

/-- `burst = sum(1 for t in p.timestamps if now - t <= BURST_WINDOW)`. -/
def burst_count (p : UserProfile) (now : ℚ) : ℕ :=
  (p.timestamps.filter fun t => now - t ≤ 5).length

/-- The bot-timing block of `_score`: with at least `BOT_MIN_REQUESTS = 20`
samples in the window, compute the inter-arrival intervals, their mean and
variance, and fire when the coefficient of variation `stddev / mean` is
below `0.08`. Over `ℚ` the test `sqrt variance / mean < 2/25` (with
`mean > 0`, `variance ≥ 0`) is expressed by the equivalent square-free
comparison `variance < (2/25 * mean)^2`. -/
def bot_timing_fired (recent : List ℚ) : Bool :=
  if 20 ≤ recent.length then
    let intervals := (recent.zip recent.tail).map fun ab => ab.2 - ab.1
    if intervals.isEmpty then false
    else
      let mean := intervals.sum / (intervals.length : ℚ)
      if 0 < mean then
        let variance := (intervals.map fun x => (x - mean) ^ 2).sum / (intervals.length : ℚ)
        decide (variance < (2 / 25 * mean) ^ 2)
      else false
  else false

/-- `uas = " ".join(p.user_agents).lower()`. -/
def uasOf (p : UserProfile) : String :=
  pyLower (String.intercalate " " p.user_agents)

/-- `any(k in uas for k in ["curl", "wget", "scrapy", "go-http",
"python-urllib", "java/"])`. -/
def generic_ua_hit (p : UserProfile) : Bool :=
  ["curl", "wget", "scrapy", "go-http", "python-urllib", "java/"].any fun k =>
    containsTok (uasOf p) k

/-- `"apachebench" in uas and rate_60 >= SUSPICIOUS_RATE`. -/
def apachebench_hit (p : UserProfile) (now : ℚ) : Bool :=
  containsTok (uasOf p) "apachebench" && decide (40 ≤ rate60 p now)

/-- `any(ua.strip() == "" for ua in p.user_agents)`. -/
def blank_ua_hit (p : UserProfile) : Bool :=
  p.user_agents.any fun ua => pyStrip ua = ""

/-- One `if <cond>: score += POINTS[s]; signals.append(s)` block of `_score`,
acting on the running `(signals, score)` accumulator. -/
def sigAdd (c : Bool) (s : String) (acc : List String × ℚ) : List String × ℚ :=
  if c then (acc.1 ++ [s], acc.2 + points s) else acc

/-- Rate signals: `rate_abusive` (`rate_60 ≥ 100`) else `rate_suspicious`
(`rate_60 ≥ 40`), mutually exclusive. -/
def acc1 (p : UserProfile) (now : ℚ) : List String × ℚ :=
  if 100 ≤ rate60 p now then (["rate_abusive"], points "rate_abusive")
  else if 40 ≤ rate60 p now then (["rate_suspicious"], points "rate_suspicious")
  else ([], 0)

/-- Burst signal: `burst >= BURST_THRESHOLD = 15`. -/
def acc2 (p : UserProfile) (now : ℚ) : List String × ℚ :=
  sigAdd (decide (15 ≤ burst_count p now)) "burst" (acc1 p now)

/-- Bot-timing signal. -/
def acc3 (p : UserProfile) (now : ℚ) : List String × ℚ :=
  sigAdd (bot_timing_fired (recent60 p now)) "bot_timing" (acc2 p now)

/-- Scraping signal: `len(set(list(p.paths))) >= SCRAPING_PATH_THRESHOLD`. -/
def acc4 (p : UserProfile) (now : ℚ) : List String × ℚ :=
  sigAdd (decide (20 ≤ p.paths.dedup.length)) "scraping" (acc3 p now)

/-- Repeated-block signals: `block_many` (`blocked_count ≥ 8`) else
`block_few` (`blocked_count ≥ 3`), mutually exclusive. -/
def acc5 (p : UserProfile) (now : ℚ) : List String × ℚ :=
  if 8 ≤ p.blocked_count then
    ((acc4 p now).1 ++ ["block_many"], (acc4 p now).2 + points "block_many")
  else if 3 ≤ p.blocked_count then
    ((acc4 p now).1 ++ ["block_few"], (acc4 p now).2 + points "block_few")
  else acc4 p now

/-- Generic automation user-agent signal. -/
def acc6 (p : UserProfile) (now : ℚ) : List String × ℚ :=
  sigAdd (generic_ua_hit p) "bot_ua" (acc5 p now)

/-- ApacheBench branch: always adds the `bot_ua` points again, but appends
the `"bot_ua"` key only when it is not already in the signal list. -/
def acc7 (p : UserProfile) (now : ℚ) : List String × ℚ :=
  if apachebench_hit p now then
    ((if "bot_ua" ∈ (acc6 p now).1 then (acc6 p now).1
      else (acc6 p now).1 ++ ["bot_ua"]),
     (acc6 p now).2 + points "bot_ua")
  else acc6 p now

/-- Missing/blank user-agent signal. -/
def acc8 (p : UserProfile) (now : ℚ) : List String × ℚ :=
  sigAdd (blank_ua_hit p) "no_ua" (acc7 p now)

/-- `MLClassifier._score(p, now)`: the accumulated signal list together with
`round(min(score, 100), 1)`. -/
def score_signals (p : UserProfile) (now : ℚ) : List String × ℚ :=
  ((acc8 p now).1, round1 (pymin (acc8 p now).2 100))

/-- `MLClassifier._classify(score, signals)`. -/
def classify (score : ℚ) (signals : List String) : Tier :=
  if 70 ≤ score ∧ "bot_timing" ∈ signals then .bot
  else if 70 ≤ score then .abusive
  else if 40 ≤ score then .suspicious
  else .normal

/-- `MLClassifier._dynamic_limits(classification)`. -/
def dynamic_limits : Tier → Option ℚ × Option ℚ
  | .bot => (some (1 / 5), some 1)
  | .abusive => (some (1 / 2), some 2)
  | .suspicious => (some 3, some 5)
  | .normal => (none, none)

/-- Class `MLClassifier` (`__init__` state; the Redis handle is optional
write-through cache, out of scope). `profiles` is a `defaultdict(UserProfile)`. -/
structure MLClassifier where
  profiles : List (String × UserProfile)
  global_timestamps : List ℚ
  traffic_history : List ℕ
  last_tick : ℚ
  tick_count : ℕ

/-- The profile mutation performed by `record_request` before scoring:
append the timestamp and path, record the (truncated) user agent when
non-empty, and bump `blocked_count` when the request was blocked. -/
def profile_after_append (m : MLClassifier) (uid path ua : String)
    (blocked : Bool) (now : ℚ) : UserProfile :=
  let p := (m.profiles.lookup uid).getD UserProfile.init  -- defaultdict access
  { p with
    timestamps := pushMax 500 p.timestamps now
    paths := pushMax 200 p.paths path
    user_agents := if ua ≠ "" then setAdd p.user_agents (pySlice 120 ua) else p.user_agents
    blocked_count := if blocked then p.blocked_count + 1 else p.blocked_count }

/-- `MLClassifier.record_request(user_id, path, user_agent, blocked)` with the
ambient `time.time()` passed as `now`. Returns `(classification, score)` and
the updated classifier. -/
def record_request (m : MLClassifier) (uid path ua : String) (blocked : Bool)
    (now : ℚ) : (Tier × ℚ) × MLClassifier :=
  let p := profile_after_append m uid path ua blocked now
  let gts := pushMax 2000 m.global_timestamps now
  let tick := m.tick_count + 1
  let th := if 1 ≤ now - m.last_tick
    then (pushMax 60 m.traffic_history tick, 0, now)
    else (m.traffic_history, tick, m.last_tick)
  let sigsc := score_signals p now
  let c := classify sigsc.2 sigsc.1
  let dyn := dynamic_limits c
  let p := { p with
    score := sigsc.2, classification := c, active_signals := sigsc.1
    dynamic_rate := dyn.1, dynamic_burst := dyn.2 }
  ((c, sigsc.2),
   { profiles := dictSet m.profiles uid p, global_timestamps := gts
     traffic_history := th.1, last_tick := th.2.2, tick_count := th.2.1 })

/-- The dictionary view returned by `MLClassifier.get_profile`. -/
structure ProfileView where
  classification : Tier
  score : ℚ
  requests_60s : ℕ
  blocked_count : ℕ
  unique_paths : ℕ
  dynamic_rate : Option ℚ
  dynamic_burst : Option ℚ
  user_agents : List String
  signals : List String

/-- `MLClassifier.get_profile(user_id)`: a read-only query; `profiles.get`
does not create a default entry, and an unseen client yields `none`. -/
def get_profile (m : MLClassifier) (uid : String) (now : ℚ) :
    Option ProfileView :=
  (m.profiles.lookup uid).map fun p =>
    { classification := p.classification
      score := round1 p.score
      requests_60s := (p.timestamps.filter fun t => now - t ≤ 60).length
      blocked_count := p.blocked_count
      unique_paths := p.paths.dedup.length
      dynamic_rate := p.dynamic_rate
      dynamic_burst := p.dynamic_burst
      user_agents := p.user_agents.take 3
      signals := p.active_signals }

/-- `total_60s` of `get_global_stats`. -/
def total_60s (m : MLClassifier) (now : ℚ) : ℕ :=
  (m.global_timestamps.filter fun t => now - t ≤ 60).length

/-- `total_5s` of `get_global_stats`. -/
def total_5s (m : MLClassifier) (now : ℚ) : ℕ :=
  (m.global_timestamps.filter fun t => now - t ≤ 5).length

/-- The dictionary returned by `MLClassifier.get_global_stats`. -/
structure GlobalStats where
  total_requests_60s : ℕ
  total_requests_5s : ℕ
  spike_predicted : Bool
  classifications : Tier → ℕ
  traffic_history : List ℕ
  active_users : ℕ

/-- `MLClassifier.get_global_stats()` with the ambient clock as `now`. -/
def get_global_stats (m : MLClassifier) (now : ℚ) : GlobalStats :=
  { total_requests_60s := total_60s m now
    total_requests_5s := total_5s m now
    spike_predicted :=
      if 0 < total_60s m now
      then decide ((total_5s m now : ℚ) * 12 > (total_60s m now : ℚ) * (3 / 2))
      else false
    classifications := fun c =>
      ((m.profiles.filter fun q =>
          0 < (q.2.timestamps.filter fun t => now - t ≤ 60).length).filter
        fun q => q.2.classification = c).length
    traffic_history := m.traffic_history.drop (m.traffic_history.length - 30)
    active_users :=
      (m.profiles.filter fun q =>
        0 < (q.2.timestamps.filter fun t => now - t ≤ 60).length).length }

/-! ## `src/app.py` — the request middleware -/

/-- The overrides read from the stored profile at the top of
`rate_limit_middleware`: `profile["dynamic_rate"]/["dynamic_burst"] if
profile else None`. -/
def middleware_overrides (m : MLClassifier) (uid : String) (now : ℚ) :
    Option ℚ × Option ℚ :=
  match get_profile m uid now with
  | some v => (v.dynamic_rate, v.dynamic_burst)
  | none => (none, none)

/-- `rate_limit_middleware` for a non-exempt path (the `/dashboard` and
`/api/` early return is path routing, outside the admission engine): read
stored overrides, consume the bucket with them, then record the request
(with `blocked = not allowed`). Returns `((allowed, classification, score),
classifier', limiter')`. -/
def rate_limit_middleware (m : MLClassifier) (lim : TokenBucket)
    (uid path ua : String) (now : ℚ) :
    (Bool × Tier × ℚ) × MLClassifier × TokenBucket :=
  let dyn := middleware_overrides m uid now
  let ares := lim.allow_request uid now dyn.1 dyn.2
  let rres := record_request m uid path ua (!ares.1) now
  ((ares.1, rres.1.1, rres.1.2), rres.2, ares.2)

example :
    (TokenBucket.allow_request ⟨5, 10, []⟩ "u" 0 none none).1 = true := by
  norm_num [TokenBucket.allow_request, TokenBucket.refill, TokenBucket.get_bucket,
    pyOr, pymin, List.lookup]

example :
    ((TokenBucket.allow_request ⟨5, 10, []⟩ "u" 0 none none).2).store.lookup "u"
      = some (9, 0) := by
  norm_num [TokenBucket.allow_request, TokenBucket.refill, TokenBucket.get_bucket,
    pyOr, pymin, dictSet, List.lookup]


/-! ## Auxiliary definitions used by the claims -/

/-- Modelled from the spec: "Effective rate/burst = override if provided else
static default" — `_refill` reinterpreted with `Option.getD` overrides, so an
override value of `0` would be honoured. Compared against the code's
`pyOr`-based `TokenBucket.refill`. -/
def TokenBucket.refill_as_specified (b : TokenBucket) (uid : String) (now : ℚ)
    (override_rate override_burst : Option ℚ) : ℚ × ℚ :=
  let rate := override_rate.getD b.rate
  let burst := override_burst.getD b.burst
  let tl := match b.get_bucket uid with
    | some tl => tl
    | none => (burst, now)
  let elapsed := now - tl.2
  (pymin burst (tl.1 + elapsed * rate), now)

/-- One `allow_request` call as seen by a driver: its `time.time()` value and
the two optional overrides. -/
structure Call where
  now : ℚ
  orate : Option ℚ
  oburst : Option ℚ

/-- A sequence of `allow_request` calls for one client, committing the bucket
state of each call before the next. -/
def runCalls (b : TokenBucket) (uid : String) (cs : List Call) : TokenBucket :=
  cs.foldl (fun b c => (b.allow_request uid c.now c.orate c.oburst).2) b

/-- Modelled from the spec: the score contribution of a fired-signal list,
"the sum of all fired signals", each key counted once at its `POINTS` value. -/
def spec_sum (signals : List String) : ℚ := (signals.map points).sum

/-- The double-counting surplus of `_score`: the ApacheBench branch adds the
`bot_ua` points a second time exactly when the generic token scan has already
fired `bot_ua`. -/
def extra_ua (p : UserProfile) (now : ℚ) : ℚ :=
  if apachebench_hit p now && generic_ua_hit p then points "bot_ua" else 0

/-- The C5 counterexample profile: a client with both a `curl` and an
`apachebench` user agent and 40 requests in the last minute. -/
def p_c5 : UserProfile :=
  ⟨List.replicate 40 99, ["/"], ["curl", "apachebench"], 0, .normal, 0, none,
    none, []⟩

/-- The C3 counterexample stored state: client `u` was classified Normal
(no overrides stored), has 8 lifetime blocks, a `curl` agent and a blank
agent on record, and one old timestamp. -/
def p_c3 : UserProfile :=
  ⟨[0], ["/"], ["curl", " "], 8, .normal, 0, none, none, []⟩

/-- The C3 counterexample classifier state holding `p_c3` for client `u`. -/
def m_c3 : MLClassifier := ⟨[("u", p_c3)], [], [], 0, 0⟩

/-- The profile `p_c3` after the current request is appended. -/
def p_c3' : UserProfile :=
  ⟨[0, 1000], ["/", "/"], ["curl", " "], 8, .normal, 0, none, none, []⟩

/-! ## Helper lemmas -/

theorem pymin_eq_min (a b : ℚ) : pymin a b = min a b := (min_def a b).symm

theorem lookup_dictSet_self {α : Type} (l : List (String × α)) (k : String)
    (v : α) : (dictSet l k v).lookup k = some v := by
  induction l with
  | nil => simp [dictSet, List.lookup]
  | cons h t ih =>
    obtain ⟨k', v'⟩ := h
    by_cases hk : k' = k
    · simp [dictSet, hk, List.lookup]
    · have h1 : (k' == k) = false := by simp [hk]
      have h2 : (k == k') = false := by simp [Ne.symm hk]
      simp [dictSet, h1, List.lookup, h2, ih]

theorem lookup_dictSet_ne {α : Type} (l : List (String × α)) (k k' : String)
    (v : α) (h : k' ≠ k) : (dictSet l k v).lookup k' = l.lookup k' := by
  induction l with
  | nil =>
    have h1 : (k' == k) = false := by simp [h]
    simp [dictSet, List.lookup, h1]
  | cons hd t ih =>
    obtain ⟨a, b⟩ := hd
    by_cases ha : a = k
    · subst ha
      have h1 : (k' == a) = false := by simp [h]
      simp [dictSet, List.lookup, h1]
    · have h1 : (a == k) = false := by simp [ha]
      simp [dictSet, h1, List.lookup, ih]

theorem refill_snd (b : TokenBucket) (uid : String) (now : ℚ)
    (orate oburst : Option ℚ) : (b.refill uid now orate oburst).2 = now := rfl

theorem allow_request_eq (b : TokenBucket) (uid : String) (now : ℚ)
    (orate oburst : Option ℚ) :
    b.allow_request uid now orate oburst
      = (decide (1 ≤ (b.refill uid now orate oburst).1),
         { b with store := dictSet b.store uid (
             (if 1 ≤ (b.refill uid now orate oburst).1
              then (b.refill uid now orate oburst).1 - 1
              else (b.refill uid now orate oburst).1), now) }) := by
  simp only [TokenBucket.allow_request]
  split <;> rename_i h
  · simp [h, refill_snd]
  · simp [h, refill_snd]

theorem pyOr_eq_getD (o : Option ℚ) (d : ℚ) (h : o ≠ some 0) :
    pyOr o d = o.getD d := by
  cases o with
  | none => rfl
  | some v =>
    have hv : v ≠ 0 := fun hv0 => h (by rw [hv0])
    simp [pyOr, hv]

/-! ## Claims -/

/-- C4: classification is decided in strict order with first match winning:
score ≥ 70 with `bot_timing` fired gives Bot; score ≥ 70 without it gives
Abusive; score ≥ 40 gives Suspicious; otherwise Normal. A score of 95 with
irregular timing (no `bot_timing` signal) is Abusive, never Bot. -/
theorem classify_strict_order (s : ℚ) (sig : List String) :
    (classify s sig = Tier.bot ↔ 70 ≤ s ∧ "bot_timing" ∈ sig) ∧
    (classify s sig = Tier.abusive ↔ 70 ≤ s ∧ "bot_timing" ∉ sig) ∧
    (classify s sig = Tier.suspicious ↔ 40 ≤ s ∧ s < 70) ∧
    (classify s sig = Tier.normal ↔ s < 40) ∧
    classify 95 ["rate_abusive", "burst", "bot_ua"] = Tier.abusive := by
  refine ⟨?_, ?_, ?_, ?_, ?_⟩ <;>
    (unfold classify; split_ifs with h1 h2 h3 <;> simp_all <;> try linarith)

/-- C9: querying the profile of an unseen client returns an empty result
(`none`) rather than an error; the embedding is a total read-only function,
so no entry is created and no exception can be raised. -/
theorem get_profile_unseen (m : MLClassifier) (uid : String) (now : ℚ)
    (h : m.profiles.lookup uid = none) : get_profile m uid now = none := by
  simp [get_profile, h]

theorem get_profile_unseen_witness :
    get_profile ⟨[], [], [], 0, 0⟩ "ghost" 0 = none :=
  get_profile_unseen ⟨[], [], [], 0, 0⟩ "ghost" 0 rfl

/-- C2: evaluation of `_refill` at a clock-skewed input. The code does not
clamp `elapsed = now - last_refill`, so with a stored bucket
`(tokens = 5, last_refill = 100)` and `now = 0` the refilled token count is
`-95`, strictly below the stored `5`: refill is not monotone under clock
skew, contradicting the specified clamp. -/
theorem refill_no_clamp_eval :
    (TokenBucket.refill ⟨1, 10, [("u", (5, 100))]⟩ "u" 0 none none).1 = -95 ∧
      (-95 : ℚ) < 5 := by
  constructor
  · norm_num [TokenBucket.refill, TokenBucket.get_bucket, pyOr, pymin,
      List.lookup]
  · norm_num

/-- C6 counterexample: providing `override_burst = 0` does not make the
effective burst `0`; Python's `or` falls back to the static default `10`,
while the specified `override if provided else default` semantics yields `0`. -/
theorem override_zero_ignored_cex :
    (TokenBucket.refill ⟨5, 10, []⟩ "u" 0 none (some 0)).1 = 10 ∧
      (TokenBucket.refill_as_specified ⟨5, 10, []⟩ "u" 0 none (some 0)).1 = 0 ∧
      (10 : ℚ) ≠ 0 := by
  refine ⟨?_, ?_, by norm_num⟩
  · norm_num [TokenBucket.refill, TokenBucket.get_bucket, pyOr, pymin,
      List.lookup]
  · norm_num [TokenBucket.refill_as_specified, TokenBucket.get_bucket, pymin,
      List.lookup]

/-- C6 amended: whenever every provided override is non-zero, the effective
rate and burst used by `_refill` equal the override when provided and the
static default otherwise; a provided override of `0` is treated as absent. -/
theorem refill_override_nonzero (b : TokenBucket) (uid : String) (now : ℚ)
    (orate oburst : Option ℚ) (hr : orate ≠ some 0) (hb : oburst ≠ some 0) :
    b.refill uid now orate oburst
      = b.refill_as_specified uid now orate oburst := by
  unfold TokenBucket.refill TokenBucket.refill_as_specified
  rw [pyOr_eq_getD orate b.rate hr, pyOr_eq_getD oburst b.burst hb]

theorem refill_override_nonzero_witness :
    TokenBucket.refill ⟨5, 10, []⟩ "u" 3 (some 2) none
      = TokenBucket.refill_as_specified ⟨5, 10, []⟩ "u" 3 (some 2) none :=
  refill_override_nonzero ⟨5, 10, []⟩ "u" 3 (some 2) none (by norm_num)
    (by simp)

/-- C8: `get_global_stats` reports `spike_predicted` exactly when the 60s
window is non-empty and `last5s * 12 > last60s * 1.5`; in particular it is
true at counts `(last5s, last60s) = (10, 20)`, false at `(1, 20)`, and false
whenever the 60s window is empty. -/
theorem spike_predicted_spec :
    (∀ (m : MLClassifier) (now : ℚ),
      ((get_global_stats m now).spike_predicted = true ↔
        0 < total_60s m now ∧
          (total_60s m now : ℚ) * (3 / 2) < (total_5s m now : ℚ) * 12)) ∧
    (get_global_stats
        ⟨[], List.replicate 10 (98 : ℚ) ++ List.replicate 10 50, [], 0, 0⟩
        100).spike_predicted = true ∧
    (get_global_stats
        ⟨[], List.replicate 1 (98 : ℚ) ++ List.replicate 19 50, [], 0, 0⟩
        100).spike_predicted = false ∧
    (get_global_stats ⟨[], [], [], 0, 0⟩ 100).spike_predicted = false := by
  refine ⟨?_, ?_, ?_, ?_⟩
  · intro m now
    by_cases h : 0 < total_60s m now
    · simp [get_global_stats, h]
    · simp [get_global_stats, h]
  · norm_num [get_global_stats, total_60s, total_5s, List.filter,
      List.replicate]
  · norm_num [get_global_stats, total_60s, total_5s, List.filter,
      List.replicate]
  · norm_num [get_global_stats, total_60s, total_5s, List.filter]

theorem dictSet_dictSet {α : Type} (l : List (String × α)) (k : String)
    (v v' : α) : dictSet (dictSet l k v) k v' = dictSet l k v' := by
  induction l with
  | nil => simp [dictSet]
  | cons hd t ih =>
    obtain ⟨a, b⟩ := hd
    by_cases ha : a = k
    · simp [dictSet, ha]
    · have h1 : (a == k) = false := by simp [ha]
      simp [dictSet, h1, ih]

theorem smart_refill_buckets (b : Smart.TokenBucket) (uid : String) (now : ℚ) :
    ((b.refill uid now).2).buckets
      = dictSet b.buckets uid ((b.refill uid now).1, now) := rfl

theorem smart_allow_request_parts (b : Smart.TokenBucket) (uid : String)
    (now : ℚ) :
    (b.allow_request uid now).1 = decide (1 ≤ (b.refill uid now).1) ∧
      ((b.allow_request uid now).2).buckets
        = dictSet b.buckets uid (
            (if 1 ≤ (b.refill uid now).1 then (b.refill uid now).1 - 1
             else (b.refill uid now).1), now) := by
  simp only [Smart.TokenBucket.allow_request]
  split <;> rename_i h
  · constructor
    · simp [h]
    · show dictSet ((b.refill uid now).2).buckets uid _ = _
      rw [smart_refill_buckets, dictSet_dictSet]
  · constructor
    · simp [h]
    · rw [smart_refill_buckets]

/-- C7: one `allow_request` call commits exactly `refill - 1` tokens with
`lastRefill = now` and returns true when the refilled count is at least 1,
and otherwise commits the refilled count unchanged with `lastRefill = now`
and returns false; the static config and every other client's bucket are
untouched. The same holds for the `smart-limiter-api` variant. -/
theorem allow_request_commit (b : TokenBucket) (uid : String) (now : ℚ)
    (orate oburst : Option ℚ) (sb : Smart.TokenBucket) (v : String) :
    ((b.allow_request uid now orate oburst).1
        = decide (1 ≤ (b.refill uid now orate oburst).1)) ∧
    (((b.allow_request uid now orate oburst).2).store.lookup uid
        = some ((if 1 ≤ (b.refill uid now orate oburst).1
                 then (b.refill uid now orate oburst).1 - 1
                 else (b.refill uid now orate oburst).1), now)) ∧
    (((b.allow_request uid now orate oburst).2).rate = b.rate) ∧
    (((b.allow_request uid now orate oburst).2).burst = b.burst) ∧
    (v ≠ uid → ((b.allow_request uid now orate oburst).2).store.lookup v
        = b.store.lookup v) ∧
    ((sb.allow_request uid now).1 = decide (1 ≤ (sb.refill uid now).1)) ∧
    (((sb.allow_request uid now).2).buckets.lookup uid
        = some ((if 1 ≤ (sb.refill uid now).1
                 then (sb.refill uid now).1 - 1
                 else (sb.refill uid now).1), now)) := by
  have hm := allow_request_eq b uid now orate oburst
  have hs := smart_allow_request_parts sb uid now
  refine ⟨by simp [hm], by simp [hm, lookup_dictSet_self], by simp [hm],
    by simp [hm], fun hv => by simp [hm, lookup_dictSet_ne _ _ _ _ hv],
    hs.1, by rw [hs.2]; exact lookup_dictSet_self _ _ _⟩

theorem allow_request_commit_witness :
    ((TokenBucket.mk 5 10 [("w", (3, 2))]).allow_request "u" 0 none
        none).2.store.lookup "w" = some (3, 2) := by
  have h := (allow_request_commit (TokenBucket.mk 5 10 [("w", (3, 2))]) "u" 0
    none none ⟨1, 1, []⟩ "w").2.2.2.2.1 (by decide)
  rw [h]
  rfl

/-- C10 counterexample: on a first-ever call with `override_burst = 0`
provided, the claim predicts the bucket is initialized at the override (0
tokens) and the call is rejected; the code falls back to the default burst
10, admits the call, and banks 9 tokens. -/
theorem first_call_zero_override_cex :
    (TokenBucket.allow_request ⟨5, 10, []⟩ "u" 7 none (some 0)).1 = true ∧
    ((TokenBucket.allow_request ⟨5, 10, []⟩ "u" 7 none
        (some 0)).2).store.lookup "u" = some (9, 7) ∧
    ¬ (1 : ℚ) ≤ Option.getD (some 0) (10 : ℚ) := by
  refine ⟨?_, ?_, by norm_num⟩
  · norm_num [TokenBucket.allow_request, TokenBucket.refill,
      TokenBucket.get_bucket, pyOr, pymin, List.lookup]
  · norm_num [TokenBucket.allow_request, TokenBucket.refill,
      TokenBucket.get_bucket, pyOr, pymin, dictSet, List.lookup]

/-- C10 amended: when a client has no bucket state and the provided burst
override is not `0`, the bucket is initialized at the effective burst
(the override when provided, else the static default), the call is admitted iff that
effective burst is at least 1, and `effectiveBurst - 1` tokens are banked
(the refilled count unchanged when rejected). -/
theorem first_call_fresh (b : TokenBucket) (uid : String) (now : ℚ)
    (orate oburst : Option ℚ) (habs : b.store.lookup uid = none)
    (h0 : oburst ≠ some 0) :
    (b.allow_request uid now orate oburst).1
        = decide (1 ≤ oburst.getD b.burst) ∧
      ((b.allow_request uid now orate oburst).2).store.lookup uid
        = some ((if 1 ≤ oburst.getD b.burst then oburst.getD b.burst - 1
                 else oburst.getD b.burst), now) := by
  have hB : pyOr oburst b.burst = oburst.getD b.burst := pyOr_eq_getD _ _ h0
  have href : b.refill uid now orate oburst = (oburst.getD b.burst, now) := by
    unfold TokenBucket.refill TokenBucket.get_bucket
    rw [habs, hB]
    norm_num [pymin]
  have hm := allow_request_eq b uid now orate oburst
  rw [href] at hm
  exact ⟨by simp [hm], by simp [hm, lookup_dictSet_self]⟩

theorem first_call_fresh_witness :
    (TokenBucket.allow_request ⟨5, 10, []⟩ "u" 7 none (some 3)).1
        = decide (1 ≤ Option.getD (some 3) (10 : ℚ)) ∧
      ((TokenBucket.allow_request ⟨5, 10, []⟩ "u" 7 none
          (some 3)).2).store.lookup "u"
        = some ((if 1 ≤ Option.getD (some 3) (10 : ℚ)
                 then Option.getD (some 3) (10 : ℚ) - 1
                 else Option.getD (some 3) (10 : ℚ)), 7) :=
  first_call_fresh ⟨5, 10, []⟩ "u" 7 none (some 3) rfl (by norm_num)

theorem runCalls_cons (b : TokenBucket) (uid : String) (c : Call)
    (t : List Call) :
    runCalls b uid (c :: t)
      = runCalls ((b.allow_request uid c.now c.orate c.oburst).2) uid t := rfl

theorem runCalls_concat (b : TokenBucket) (uid : String) (t : List Call)
    (c : Call) :
    runCalls b uid (t ++ [c])
      = ((runCalls b uid t).allow_request uid c.now c.orate c.oburst).2 := by
  simp [runCalls, List.foldl_append]

theorem runCalls_fields (b : TokenBucket) (uid : String) (cs : List Call) :
    (runCalls b uid cs).rate = b.rate ∧ (runCalls b uid cs).burst = b.burst := by
  induction cs generalizing b with
  | nil => exact ⟨rfl, rfl⟩
  | cons c t ih =>
    rw [runCalls_cons]
    have h := allow_request_eq b uid c.now c.orate c.oburst
    rcases ih ((b.allow_request uid c.now c.orate c.oburst).2) with ⟨h1, h2⟩
    exact ⟨by rw [h1]; simp [h], by rw [h2]; simp [h]⟩

theorem allow_request_step_bounds (b : TokenBucket) (uid : String) (now : ℚ)
    (orate oburst : Option ℚ)
    (hR : 0 ≤ pyOr orate b.rate) (hB : 0 ≤ pyOr oburst b.burst)
    (hstate : ∀ tok last, b.store.lookup uid = some (tok, last) →
      0 ≤ tok ∧ last ≤ now) :
    ∀ tok last,
      ((b.allow_request uid now orate oburst).2).store.lookup uid
          = some (tok, last) →
        0 ≤ tok ∧ tok ≤ pyOr oburst b.burst ∧ last = now := by
  have hrefl : 0 ≤ (b.refill uid now orate oburst).1 ∧
      (b.refill uid now orate oburst).1 ≤ pyOr oburst b.burst := by
    unfold TokenBucket.refill TokenBucket.get_bucket
    cases hlk : b.store.lookup uid with
    | none =>
      simp only [hlk, pymin_eq_min]
      constructor
      · apply le_min hB
        have : now - now = 0 := sub_self now
        rw [this, zero_mul, add_zero]
        exact hB
      · exact min_le_left _ _
    | some tl =>
      obtain ⟨tok0, last0⟩ := tl
      obtain ⟨h0, hln⟩ := hstate tok0 last0 hlk
      simp only [hlk, pymin_eq_min]
      constructor
      · apply le_min hB
        have hm : 0 ≤ (now - last0) * pyOr orate b.rate :=
          mul_nonneg (by linarith) hR
        linarith
      · exact min_le_left _ _
  intro tok last h
  have hm := allow_request_eq b uid now orate oburst
  rw [hm] at h
  simp only [lookup_dictSet_self, Option.some.injEq, Prod.mk.injEq] at h
  obtain ⟨h1, h2⟩ := h
  subst h2
  split_ifs at h1 with hge
  · subst h1
    exact ⟨by linarith [hrefl.1], by linarith [hrefl.2], rfl⟩
  · subst h1
    exact ⟨hrefl.1, hrefl.2, rfl⟩

/-- C1 amended: starting from a fresh limiter, for any sequence of
`allow_request` calls for one client whose clock values are non-decreasing
(no skew backwards) and whose effective per-call rates and bursts are
non-negative, the committed token count always stays within
`[0, effectiveBurst]` for the burst in effect on the last executed call —
in particular a demoted burst ceiling clamps the banked tokens on the very
next call. Without the no-skew hypothesis the property fails
(`tokens_nonneg_cex`). -/
theorem tokens_within_bounds (rate burst : ℚ) (uid : String) (cs : List Call) :
    (∀ c ∈ cs, 0 ≤ pyOr c.orate rate ∧ 0 ≤ pyOr c.oburst burst) →
    cs.Chain' (fun a b => a.now ≤ b.now) →
    ∀ tok last,
      (runCalls ⟨rate, burst, []⟩ uid cs).store.lookup uid
          = some (tok, last) →
        ∃ c, cs.getLast? = some c ∧ 0 ≤ tok ∧ tok ≤ pyOr c.oburst burst ∧
          last = c.now := by
  induction cs using List.reverseRecOn with
  | nil =>
    intro _ _ tok last h
    simp [runCalls, List.lookup] at h
  | append_singleton t c ih =>
    intro heff hchron tok last hlk
    rw [runCalls_concat] at hlk
    have hfields := runCalls_fields ⟨rate, burst, []⟩ uid t
    rcases List.chain'_append.mp hchron with ⟨hct, -, hlink⟩
    have heffc := heff c (by simp)
    have hR : 0 ≤ pyOr c.orate (runCalls ⟨rate, burst, []⟩ uid t).rate := by
      rw [hfields.1]; exact heffc.1
    have hB : 0 ≤ pyOr c.oburst (runCalls ⟨rate, burst, []⟩ uid t).burst := by
      rw [hfields.2]; exact heffc.2
    have hstate : ∀ tok0 last0,
        (runCalls ⟨rate, burst, []⟩ uid t).store.lookup uid
            = some (tok0, last0) → 0 ≤ tok0 ∧ last0 ≤ c.now := by
      intro tok0 last0 h0
      obtain ⟨c0, hlast, h01, h02, h03⟩ :=
        ih (fun x hx => heff x (by simp [hx])) hct tok0 last0 h0
      refine ⟨h01, ?_⟩
      rw [h03]
      exact hlink c0 hlast c (by simp)
    obtain ⟨r1, r2, r3⟩ := allow_request_step_bounds
      (runCalls ⟨rate, burst, []⟩ uid t) uid c.now c.orate c.oburst hR hB
      hstate tok last hlk
    refine ⟨c, by simp, r1, ?_, r3⟩
    rw [hfields.2] at r2
    exact r2

/-- C1 counterexample: with the clock stepping backwards (`now = 100` then
`now = 0`) the committed token count becomes `-91`, which is negative — the
claimed invariant fails for arbitrary current times because `_refill` never
clamps `elapsed`. -/
theorem tokens_nonneg_cex :
    ((runCalls ⟨1, 10, []⟩ "u" [⟨100, none, none⟩, ⟨0, none, none⟩]).store.lookup
        "u" = some (-91, 0)) ∧ ¬ ((0 : ℚ) ≤ -91) := by
  constructor
  · norm_num [runCalls, List.foldl, TokenBucket.allow_request,
      TokenBucket.refill, TokenBucket.get_bucket, pyOr, pymin, dictSet,
      List.lookup]
  · norm_num

theorem tokens_within_bounds_witness :
    ∃ c, ([⟨0, none, none⟩, ⟨1, none, some 5⟩] : List Call).getLast? = some c ∧
      0 ≤ (4 : ℚ) ∧ (4 : ℚ) ≤ pyOr c.oburst 10 ∧ (1 : ℚ) = c.now :=
  tokens_within_bounds 1 10 "u" [⟨0, none, none⟩, ⟨1, none, some 5⟩]
    (by
      intro c hc
      simp only [List.mem_cons, List.mem_singleton] at hc
      rcases hc with rfl | rfl | hc
      · constructor <;> norm_num [pyOr]
      · constructor <;> norm_num [pyOr]
      · exact absurd hc (List.not_mem_nil c))
    (by
      refine List.chain'_cons.mpr ⟨by norm_num, ?_⟩
      exact List.chain'_singleton _)
    4 1
    (by
      norm_num [runCalls, List.foldl, TokenBucket.allow_request,
        TokenBucket.refill, TokenBucket.get_bucket, pyOr, pymin, dictSet,
        List.lookup])

theorem spec_sum_append (l : List String) (s : String) :
    spec_sum (l ++ [s]) = spec_sum l + points s := by
  simp [spec_sum]

theorem sigAdd_sum (c : Bool) (s : String) (acc : List String × ℚ) (e : ℚ)
    (h : acc.2 = spec_sum acc.1 + e) :
    (sigAdd c s acc).2 = spec_sum (sigAdd c s acc).1 + e := by
  cases c
  · simpa [sigAdd] using h
  · simp only [sigAdd, if_pos, spec_sum_append, h]
    ring

theorem sigAdd_sum0 (c : Bool) (s : String) (acc : List String × ℚ)
    (h : acc.2 = spec_sum acc.1) :
    (sigAdd c s acc).2 = spec_sum (sigAdd c s acc).1 := by
  have := sigAdd_sum c s acc 0 (by rw [h, add_zero])
  rwa [add_zero] at this

theorem sigAdd_not_mem (c : Bool) (s x : String) (acc : List String × ℚ)
    (hx : x ∉ acc.1) (hs : x ≠ s) : x ∉ (sigAdd c s acc).1 := by
  cases c <;> simp [sigAdd, hx, hs]

theorem acc1_sum (p : UserProfile) (now : ℚ) :
    (acc1 p now).2 = spec_sum (acc1 p now).1 := by
  unfold acc1
  split_ifs <;> simp [spec_sum]

theorem acc2_sum (p : UserProfile) (now : ℚ) :
    (acc2 p now).2 = spec_sum (acc2 p now).1 := by
  unfold acc2
  exact sigAdd_sum0 _ _ _ (acc1_sum p now)

theorem acc3_sum (p : UserProfile) (now : ℚ) :
    (acc3 p now).2 = spec_sum (acc3 p now).1 := by
  unfold acc3
  exact sigAdd_sum0 _ _ _ (acc2_sum p now)

theorem acc4_sum (p : UserProfile) (now : ℚ) :
    (acc4 p now).2 = spec_sum (acc4 p now).1 := by
  unfold acc4
  exact sigAdd_sum0 _ _ _ (acc3_sum p now)

theorem acc5_sum (p : UserProfile) (now : ℚ) :
    (acc5 p now).2 = spec_sum (acc5 p now).1 := by
  unfold acc5
  split_ifs <;> simp [spec_sum_append, acc4_sum p now]

theorem acc6_sum (p : UserProfile) (now : ℚ) :
    (acc6 p now).2 = spec_sum (acc6 p now).1 :=
  sigAdd_sum0 _ _ _ (acc5_sum p now)

theorem bot_ua_not_mem_acc5 (p : UserProfile) (now : ℚ) :
    "bot_ua" ∉ (acc5 p now).1 := by
  have h1 : "bot_ua" ∉ (acc1 p now).1 := by
    unfold acc1
    split_ifs <;> simp
  have h2 : "bot_ua" ∉ (acc2 p now).1 := by
    unfold acc2
    exact sigAdd_not_mem _ _ _ _ h1 (by decide)
  have h3 : "bot_ua" ∉ (acc3 p now).1 := by
    unfold acc3
    exact sigAdd_not_mem _ _ _ _ h2 (by decide)
  have h4 : "bot_ua" ∉ (acc4 p now).1 := by
    unfold acc4
    exact sigAdd_not_mem _ _ _ _ h3 (by decide)
  unfold acc5
  split_ifs <;> simp [h4]

theorem bot_ua_mem_acc6 (p : UserProfile) (now : ℚ) :
    "bot_ua" ∈ (acc6 p now).1 ↔ generic_ua_hit p = true := by
  unfold acc6
  cases hg : generic_ua_hit p
  · simp [sigAdd, bot_ua_not_mem_acc5]
  · simp [sigAdd]

theorem acc7_sum (p : UserProfile) (now : ℚ) :
    (acc7 p now).2 = spec_sum (acc7 p now).1 + extra_ua p now := by
  unfold acc7 extra_ua
  cases ha : apachebench_hit p now
  · simp [acc6_sum p now]
  · cases hg : generic_ua_hit p
    · have hnm : "bot_ua" ∉ (acc6 p now).1 := by
        rw [bot_ua_mem_acc6, hg]
        simp
      simp only [if_pos, Bool.true_and, hg, hnm, if_neg, if_false,
        Bool.and_self, ite_true, ite_false, Bool.and_false]
      simp [hnm, spec_sum_append, acc6_sum p now]
    · have hm : "bot_ua" ∈ (acc6 p now).1 := (bot_ua_mem_acc6 p now).mpr hg
      simp [hm, acc6_sum p now]

theorem acc8_sum (p : UserProfile) (now : ℚ) :
    (acc8 p now).2 = spec_sum (acc8 p now).1 + extra_ua p now := by
  unfold acc8
  exact sigAdd_sum _ _ _ _ (acc7_sum p now)

theorem points_nonneg (s : String) : 0 ≤ points s := by
  unfold points
  split <;> norm_num

theorem spec_sum_nonneg (l : List String) : 0 ≤ spec_sum l := by
  unfold spec_sum
  apply List.sum_nonneg
  intro x hx
  simp only [List.mem_map] at hx
  obtain ⟨s, -, rfl⟩ := hx
  exact points_nonneg s

theorem extra_ua_nonneg (p : UserProfile) (now : ℚ) : 0 ≤ extra_ua p now := by
  unfold extra_ua
  split_ifs <;> norm_num [points]

theorem round1_nonneg (x : ℚ) (hx : 0 ≤ x) : 0 ≤ round1 x := by
  unfold round1
  apply div_nonneg _ (by norm_num)
  exact_mod_cast Int.floor_nonneg.mpr (by linarith)

theorem round1_le_100 (x : ℚ) (hx : x ≤ 100) : round1 x ≤ 100 := by
  unfold round1
  rw [div_le_iff₀ (by norm_num : (0 : ℚ) < 10)]
  have h1 : ⌊x * 10 + 1 / 2⌋ < 1001 := by
    apply Int.floor_lt.mpr
    push_cast
    linarith
  have h1' : ⌊x * 10 + 1 / 2⌋ ≤ 1000 := by omega
  have h2 : (⌊x * 10 + 1 / 2⌋ : ℚ) ≤ 1000 := by exact_mod_cast h1'
  linarith

/-- C5 amended: for every profile snapshot and time, the returned score
equals the clamp-and-round of the sum of the fired signals' fixed points
PLUS one extra `bot_ua` contribution (10) exactly when both the generic
automation-token scan fired `bot_ua` and the ApacheBench branch fired
(`apachebench` in the joined agents and `rate60 ≥ 40`): the ApacheBench
branch adds the points a second time while appending the signal key only
once. The result is clamped to `[0, 100]` and rounded to one decimal. -/
theorem score_sum_of_signals (p : UserProfile) (now : ℚ) :
    ((score_signals p now).2
        = round1 (pymin (spec_sum (score_signals p now).1 + extra_ua p now)
            100)) ∧
      0 ≤ (score_signals p now).2 ∧ (score_signals p now).2 ≤ 100 := by
  have hacc8 := acc8_sum p now
  refine ⟨?_, ?_, ?_⟩
  · show round1 (pymin (acc8 p now).2 100) = _
    rw [hacc8]
    rfl
  · apply round1_nonneg
    rw [pymin_eq_min]
    apply le_min _ (by norm_num)
    show (0 : ℚ) ≤ (acc8 p now).2
    rw [hacc8]
    have := spec_sum_nonneg (acc8 p now).1
    have he := extra_ua_nonneg p now
    linarith
  · apply round1_le_100
    rw [pymin_eq_min]
    exact min_le_right _ _

/-- C5 counterexample: for this profile the fired-signal list is
`[rate_suspicious, burst, bot_ua]` whose fixed points sum to 50, but the
returned score is 60 — the ApacheBench branch added the `bot_ua` points a
second time — so the score is not the clamped rounded sum of the fired
signals' points counted once each. -/
theorem score_double_count_cex :
    (score_signals p_c5 100).1 = ["rate_suspicious", "burst", "bot_ua"] ∧
      (score_signals p_c5 100).2 = 60 ∧
      round1 (pymin (spec_sum (score_signals p_c5 100).1) 100) = 50 ∧
      (60 : ℚ) ≠ 50 := by
  have hg : generic_ua_hit p_c5 = true := by decide
  have hab : containsTok (uasOf p_c5) "apachebench" = true := by decide
  have hbl : blank_ua_hit p_c5 = false := by decide
  have hrec : recent60 p_c5 100 = List.replicate 40 99 := by
    norm_num [recent60, p_c5, List.replicate, List.filter]
  have hrate : rate60 p_c5 100 = 40 := by
    rw [rate60, hrec]
    simp
  have hburst : burst_count p_c5 100 = 40 := by
    norm_num [burst_count, p_c5, List.replicate, List.filter]
  have hbt : bot_timing_fired (recent60 p_c5 100) = false := by
    rw [hrec]
    norm_num [bot_timing_fired, List.replicate, List.zipWith, List.zip,
      List.isEmpty, List.sum]
  have ha1 : acc1 p_c5 100 = (["rate_suspicious"], 20) := by
    norm_num [acc1, hrate, points]
  have ha2 : acc2 p_c5 100 = (["rate_suspicious", "burst"], 40) := by
    norm_num [acc2, ha1, hburst, sigAdd, points]
  have ha3 : acc3 p_c5 100 = (["rate_suspicious", "burst"], 40) := by
    rw [acc3, hbt, ha2]
    simp [sigAdd]
  have ha4 : acc4 p_c5 100 = (["rate_suspicious", "burst"], 40) := by
    have hp : p_c5.paths.dedup.length = 1 := by decide
    norm_num [acc4, ha3, hp, sigAdd]
  have ha5 : acc5 p_c5 100 = (["rate_suspicious", "burst"], 40) := by
    have hb : p_c5.blocked_count = 0 := rfl
    norm_num [acc5, ha4, hb]
  have ha6 : acc6 p_c5 100 = (["rate_suspicious", "burst", "bot_ua"], 50) := by
    norm_num [acc6, ha5, hg, sigAdd, points]
  have ha7 : acc7 p_c5 100 = (["rate_suspicious", "burst", "bot_ua"], 60) := by
    have hhit : apachebench_hit p_c5 100 = true := by
      rw [apachebench_hit, hab, hrate]
      norm_num
    norm_num [acc7, ha6, hhit, points]
  have ha8 : acc8 p_c5 100 = (["rate_suspicious", "burst", "bot_ua"], 60) := by
    rw [acc8, hbl, ha7]
    simp [sigAdd]
  refine ⟨?_, ?_, ?_, by norm_num⟩
  · show (acc8 p_c5 100).1 = _
    rw [ha8]
  · show round1 (pymin (acc8 p_c5 100).2 100) = 60
    rw [ha8]
    norm_num [round1, pymin]
  · show round1 (pymin (spec_sum (acc8 p_c5 100).1) 100) = 50
    rw [ha8]
    norm_num [spec_sum, points, round1, pymin]

theorem mem_pushMax {α : Type} (n : ℕ) (hn : 1 ≤ n) (xs : List α) (x : α) :
    x ∈ pushMax n xs x := by
  unfold pushMax
  have hle : (xs ++ [x]).length - n ≤ xs.length := by
    simp only [List.length_append, List.length_singleton]
    omega
  rw [List.drop_append_of_le_length hle]
  simp

theorem record_request_profile (m : MLClassifier) (uid path ua : String)
    (blocked : Bool) (now : ℚ) :
    (record_request m uid path ua blocked now).2.profiles.lookup uid
      = some (
          let p := profile_after_append m uid path ua blocked now
          let sigsc := score_signals p now
          let c := classify sigsc.2 sigsc.1
          let dyn := dynamic_limits c
          { p with score := sigsc.2, classification := c
                   active_signals := sigsc.1, dynamic_rate := dyn.1
                   dynamic_burst := dyn.2 }) := by
  show (dictSet m.profiles uid _).lookup uid = _
  exact lookup_dictSet_self _ _ _

/-- C3 amended: the middleware admits or rejects using the overrides stored
by the previous request's classification (`middleware_overrides`, read from
the profile before any update; `none` for unseen or Normal clients), and only
afterwards records the request; within `record_request` the current
timestamp/path/agent are appended before scoring, so the returned score is
computed over a history that includes the current request, and the overrides
derived from it take effect from the next request onward. -/
theorem middleware_order (m : MLClassifier) (lim : TokenBucket)
    (uid path ua : String) (now : ℚ) :
    ((rate_limit_middleware m lim uid path ua now).1.1
        = (lim.allow_request uid now (middleware_overrides m uid now).1
            (middleware_overrides m uid now).2).1) ∧
    ((rate_limit_middleware m lim uid path ua now).2.2
        = (lim.allow_request uid now (middleware_overrides m uid now).1
            (middleware_overrides m uid now).2).2) ∧
    ((rate_limit_middleware m lim uid path ua now).1.2.2
        = (score_signals (profile_after_append m uid path ua
            (!(lim.allow_request uid now (middleware_overrides m uid now).1
                (middleware_overrides m uid now).2).1) now) now).2) ∧
    (now ∈ (profile_after_append m uid path ua
        (!(lim.allow_request uid now (middleware_overrides m uid now).1
            (middleware_overrides m uid now).2).1) now).timestamps) := by
  refine ⟨rfl, rfl, rfl, ?_⟩
  show now ∈ pushMax 500 _ now
  exact mem_pushMax 500 (by norm_num) _ now

/-- C3 counterexample: at state `m_c3` the middleware passes the overrides
`(none, none)` stored by the previous classification to `Allow` (and the
request is admitted), while the classification that includes the current
request is Suspicious with derived overrides `(3.0, 5)` — which are only
written back for later requests. The overrides used for this admission are
not the ones derived from the same-request classification. -/
theorem middleware_stale_overrides_cex :
    middleware_overrides m_c3 "u" 1000 = (none, none) ∧
    (rate_limit_middleware m_c3 ⟨5, 10, []⟩ "u" "/" "curl" 1000).1.1 = true ∧
    (record_request m_c3 "u" "/" "curl" false 1000).1 = (Tier.suspicious, 40) ∧
    ((record_request m_c3 "u" "/" "curl" false 1000).2.profiles.lookup
        "u").map (fun q => (q.dynamic_rate, q.dynamic_burst))
      = some (some 3, some 5) ∧
    ((none : Option ℚ), (none : Option ℚ)) ≠ (some (3 : ℚ), some (5 : ℚ)) := by
  have hmo : middleware_overrides m_c3 "u" 1000 = (none, none) := rfl
  have happ : profile_after_append m_c3 "u" "/" "curl" false 1000 = p_c3' := by
    norm_num [profile_after_append, m_c3, p_c3, p_c3', pushMax, setAdd,
      pySlice, List.lookup]
  have hg : generic_ua_hit p_c3' = true := by decide
  have hbl : blank_ua_hit p_c3' = true := by decide
  have hab : containsTok (uasOf p_c3') "apachebench" = false := by decide
  have ht : p_c3'.timestamps = [0, 1000] := rfl
  have hpa : p_c3'.paths = ["/", "/"] := rfl
  have hbc : p_c3'.blocked_count = 8 := rfl
  have hscore : score_signals p_c3' 1000
      = (["block_many", "bot_ua", "no_ua"], 40) := by
    norm_num [score_signals, acc8, acc7, acc6, acc5, acc4, acc3, acc2, acc1,
      sigAdd, hg, hbl, hab, apachebench_hit, bot_timing_fired, recent60,
      rate60, burst_count, ht, hpa, hbc, points, round1, pymin, List.filter]
  have hcls : classify 40 ["block_many", "bot_ua", "no_ua"]
      = Tier.suspicious := by
    norm_num [classify]
  have hrr : (record_request m_c3 "u" "/" "curl" false 1000).1
      = (Tier.suspicious, 40) := by
    have hr : (record_request m_c3 "u" "/" "curl" false 1000).1
        = (classify
            (score_signals (profile_after_append m_c3 "u" "/" "curl" false
              1000) 1000).2
            (score_signals (profile_after_append m_c3 "u" "/" "curl" false
              1000) 1000).1,
           (score_signals (profile_after_append m_c3 "u" "/" "curl" false
              1000) 1000).2) := rfl
    rw [hr, happ, hscore]
    simp [hcls]
  refine ⟨hmo, ?_, hrr, ?_, by simp⟩
  · show (TokenBucket.allow_request ⟨5, 10, []⟩ "u" 1000
        (middleware_overrides m_c3 "u" 1000).1
        (middleware_overrides m_c3 "u" 1000).2).1 = true
    rw [hmo]
    norm_num [TokenBucket.allow_request, TokenBucket.refill,
      TokenBucket.get_bucket, pyOr, pymin, List.lookup]
  · rw [record_request_profile]
    simp only [Option.map_some]
    rw [happ, hscore]
    simp [hcls, dynamic_limits]
